import Mathlib

set_option linter.unusedVariables false

/-!
Shallow embedding of the crazyfileDemo core: the collision-avoidance path
planner (`src/backend/algorithms/trajectory_planner.py`, class
`SimpleCollisionAvoidance`) and the drone simulator state machine
(`src/backend/simulators/mock_simulator.py`, class `DroneSimulator`).
Python floats are modelled as real numbers; the unbounded recursion of
`_find_detour_path` is modelled with an explicit fuel parameter, `none`
standing for recursion exhaustion; the per-tick Gaussian sensor noise is
modelled as an arbitrary additive perturbation supplied as input.
-/

open Classical

noncomputable section

/-- A 3D point / waypoint, `(x, y, z)` float triple in the source. -/
structure Pt where
  x : ℝ
  y : ℝ
  z : ℝ

/-- `SimpleCollisionAvoidance._point_to_line_distance`: minimum distance from
`p` to the segment from `a` to `b`, by clamped projection. -/
def point_to_line_distance (a b p : Pt) : ℝ :=
  let lvx := b.x - a.x
  let lvy := b.y - a.y
  let lvz := b.z - a.z
  let pvx := p.x - a.x
  let pvy := p.y - a.y
  let pvz := p.z - a.z
  let llsq := lvx ^ 2 + lvy ^ 2 + lvz ^ 2
  if llsq = 0 then
    Real.sqrt (pvx ^ 2 + pvy ^ 2 + pvz ^ 2)
  else
    let t := max 0 (min 1 ((pvx * lvx + pvy * lvy + pvz * lvz) / llsq))
    let cx := a.x + t * lvx
    let cy := a.y + t * lvy
    let cz := a.z + t * lvz
    Real.sqrt ((p.x - cx) ^ 2 + (p.y - cy) ^ 2 + (p.z - cz) ^ 2)

/-- `SimpleCollisionAvoidance._is_path_clear`: the segment from `a` to `b`
keeps every obstacle at distance at least the safety radius `sr`. -/
def is_path_clear (sr : ℝ) (a b : Pt) (obstacles : List Pt) : Prop :=
  ∀ o ∈ obstacles, ¬ (point_to_line_distance a b o < sr)

/-- One iteration of the obstacle-selection loop of `_find_detour_path`:
the candidate is replaced only on strictly smaller distance, so the first
obstacle attaining the minimum is kept (`min_distance` starts at
`float('inf')`, modelled by the `none` accumulator). -/
def closer_step (a b : Pt) (acc : Option (Pt × ℝ)) (o : Pt) : Option (Pt × ℝ) :=
  match acc with
  | none => some (o, point_to_line_distance a b o)
  | some (c, cd) =>
    if point_to_line_distance a b o < cd then some (o, point_to_line_distance a b o)
    else some (c, cd)

/-- The obstacle-selection loop of `_find_detour_path`. -/
def closest_obstacle (a b : Pt) (obstacles : List Pt) : Option Pt :=
  (obstacles.foldl (closer_step a b) none).map Prod.fst

/-- `SimpleCollisionAvoidance._cross_product`. -/
def cross_product (a b : Pt) : Pt :=
  ⟨a.y * b.z - a.z * b.y, a.z * b.x - a.x * b.z, a.x * b.y - a.y * b.x⟩

/-- `SimpleCollisionAvoidance._calculate_detour_midpoint`: project the
obstacle onto the start-goal line (clamped), offset from the projection by
`1.5 × sr` along the normalized perpendicular, with the fixed-axis
fallback when the cross product vanishes. -/
def calculate_detour_midpoint (sr : ℝ) (s g obstacle : Pt) : Pt :=
  let gvx := g.x - s.x
  let gvy := g.y - s.y
  let gvz := g.z - s.z
  let ovx := obstacle.x - s.x
  let ovy := obstacle.y - s.y
  let ovz := obstacle.z - s.z
  let glsq := gvx ^ 2 + gvy ^ 2 + gvz ^ 2
  if glsq = 0 then s
  else
    let t := max 0 (min 1 ((ovx * gvx + ovy * gvy + ovz * gvz) / glsq))
    let px := s.x + t * gvx
    let py := s.y + t * gvy
    let pz := s.z + t * gvz
    let cr := cross_product ⟨gvx, gvy, gvz⟩ ⟨obstacle.x - px, obstacle.y - py, obstacle.z - pz⟩
    let pl := Real.sqrt (cr.x ^ 2 + cr.y ^ 2 + cr.z ^ 2)
    let perp : Pt :=
      if pl = 0 then (if gvz = 0 then ⟨0, 0, 1⟩ else ⟨1, 0, 0⟩)
      else ⟨cr.x / pl, cr.y / pl, cr.z / pl⟩
    let dd := sr * 1.5
    ⟨px + dd * perp.x, py + dd * perp.y, pz + dd * perp.z⟩

/-- `SimpleCollisionAvoidance._find_detour_path`, with an explicit fuel
parameter bounding the recursion depth; `none` models recursion
exhaustion (the Python function recurses without bound). -/
def find_detour_path (sr : ℝ) : Nat → Pt → Pt → List Pt → Option (List Pt)
  | 0, _, _, _ => none
  | fuel + 1, s, g, obstacles =>
    match closest_obstacle s g obstacles with
    | none => some [s, g]
    | some ob =>
      if is_path_clear sr s (calculate_detour_midpoint sr s g ob) obstacles ∧
          is_path_clear sr (calculate_detour_midpoint sr s g ob) g obstacles then
        some [s, calculate_detour_midpoint sr s g ob, g]
      else
        (if is_path_clear sr s (calculate_detour_midpoint sr s g ob) obstacles then
          some [s, calculate_detour_midpoint sr s g ob]
         else find_detour_path sr fuel s (calculate_detour_midpoint sr s g ob) obstacles).bind
          fun d1 =>
            (if is_path_clear sr (calculate_detour_midpoint sr s g ob) g obstacles then
              some [calculate_detour_midpoint sr s g ob, g]
             else find_detour_path sr fuel (calculate_detour_midpoint sr s g ob) g obstacles).map
              fun d2 => d1.dropLast ++ d2

/-- `SimpleCollisionAvoidance.plan_path`: the direct two-point path when it
is clear, otherwise the fuel-bounded detour search. -/
def plan_path (sr : ℝ) (fuel : Nat) (s g : Pt) (obstacles : List Pt) : Option (List Pt) :=
  if is_path_clear sr s g obstacles then some [s, g]
  else find_detour_path sr fuel s g obstacles

/-- Euclidean distance between two waypoints, as computed inline in
`validate_path` for the path-length sum. -/
def dist3 (a b : Pt) : ℝ :=
  Real.sqrt ((b.x - a.x) ^ 2 + (b.y - a.y) ^ 2 + (b.z - a.z) ^ 2)

/-- The nested minimum-separation loops of `validate_path`; the running
minimum starts at `float('inf')`, modelled by `⊤ : EReal`. -/
def min_separation (path obstacles : List Pt) : EReal :=
  (path.zip path.tail).foldl
    (fun acc ab =>
      obstacles.foldl
        (fun acc2 o => min acc2 ((point_to_line_distance ab.1 ab.2 o : ℝ) : EReal))
        acc)
    ⊤

/-- The path-length loop of `validate_path`. -/
def path_length_of (path : List Pt) : ℝ :=
  (path.zip path.tail).foldl (fun acc ab => acc + dist3 ab.1 ab.2) 0

/-- The dictionary returned by `validate_path`; `waypoints` and `reason`
are optional because the two branches of the source return different key
sets. -/
structure ValidationReport where
  valid : Bool
  success : Bool
  pathLength : ℝ
  minSeparation : EReal
  waypoints : Option Nat
  reason : Option String

/-- `SimpleCollisionAvoidance.validate_path`. -/
def validate_path (sr : ℝ) (path obstacles : List Pt) : ValidationReport :=
  if path.length < 2 then
    ⟨false, false, 0, ⊤, none, some "Path too short"⟩
  else
    let msep := min_separation path obstacles
    let safe := (sr : EReal) ≤ msep
    ⟨decide safe, decide safe, path_length_of path, msep, some path.length, none⟩

end

/-- `DroneStatus` enum of the mock simulator. -/
inductive DroneStatus where
  | idle
  | takingOff
  | flying
  | landing
  | error
  deriving DecidableEq

/-- `DroneState` dataclass of the mock simulator. -/
structure DroneState where
  id : String
  x : ℝ
  y : ℝ
  z : ℝ
  vx : ℝ
  vy : ℝ
  vz : ℝ
  battery : ℝ
  status : DroneStatus
  target_x : ℝ
  target_y : ℝ
  target_z : ℝ
  takeoff_height : ℝ
  takeoff_start : ℝ
  takeoff_duration : ℝ
  land_start : ℝ
  last_update : ℝ

/-- The dataclass defaults: a fresh drone as built by `create_swarm`. -/
def initDrone (i : String) : DroneState :=
  ⟨i, 0, 0, 0, 0, 0, 0, 100, DroneStatus.idle, 0, 0, 0, 0, 0, 0, 0, 0⟩

/-- `self.dt = 1.0 / self.tick_rate` with `tick_rate = 20`. -/
noncomputable def dt : ℝ := 1 / 20

/-- `self.max_speed = 1.0`. -/
noncomputable def max_speed : ℝ := 1

/-- `self.max_height = 1.0`. -/
noncomputable def max_height : ℝ := 1

/-- `self.workspace_bounds = 2.0`. -/
noncomputable def workspace_bounds : ℝ := 2

/-- `self.battery_drain_rate = 0.1`. -/
noncomputable def battery_drain_rate : ℝ := 0.1

/-- One tick's Gaussian sensor perturbation for one drone, modelled as an
arbitrary additive offset on each position and velocity component. -/
structure Noise where
  nx : ℝ
  ny : ℝ
  nz : ℝ
  nvx : ℝ
  nvy : ℝ
  nvz : ℝ

/-- The zero perturbation. -/
def noise0 : Noise := ⟨0, 0, 0, 0, 0, 0⟩

/-- The simulator's drone registry `self.drones`, a finite mapping from
identifier to state; modelled as an association list in insertion order
(Python dict iteration order). -/
abbrev Registry := List (String × DroneState)

/-- Dictionary lookup `self.drones[drone_id]`. -/
def lookupDrone (i : String) : Registry → Option DroneState
  | [] => none
  | (k, d) :: rest => if k = i then some d else lookupDrone i rest

/-- In-place mutation of one registry entry. -/
def modifyEntry (drones : Registry) (i : String) (f : DroneState → DroneState) : Registry :=
  drones.map fun kv => if kv.1 = i then (kv.1, f kv.2) else kv

/-- The field mutation performed by a successful `takeoff`. -/
def takeoffMut (height duration now : ℝ) (d0 : DroneState) : DroneState :=
  { d0 with status := DroneStatus.takingOff, takeoff_height := height,
            takeoff_duration := duration, takeoff_start := now }

/-- The field mutation performed by a successful `land`. -/
def landMut (now : ℝ) (d0 : DroneState) : DroneState :=
  { d0 with status := DroneStatus.landing, land_start := now }

/-- `DroneSimulator.takeoff` (`now` stands for `time.time()`). -/
def takeoff (drones : Registry) (i : String) (height duration now : ℝ) : Bool × Registry :=
  match lookupDrone i drones with
  | none => (false, drones)
  | some d =>
    if d.status = DroneStatus.idle then
      (true, modifyEntry drones i (takeoffMut height duration now))
    else (false, drones)

/-- Target-position assignment shared by `goto` and `set_formation`. -/
def setTarget (x y z : ℝ) (d : DroneState) : DroneState :=
  { d with target_x := x, target_y := y, target_z := z }

/-- `DroneSimulator.goto`; the `speed` argument is received but never read
by the body, exactly as in the source. -/
def goto (drones : Registry) (i : String) (x y z speed : ℝ) : Bool × Registry :=
  match lookupDrone i drones with
  | none => (false, drones)
  | some d =>
    if d.status = DroneStatus.flying ∨ d.status = DroneStatus.takingOff then
      (true, modifyEntry drones i (setTarget x y z))
    else (false, drones)

/-- `DroneSimulator.land` (`now` stands for `time.time()`). -/
def land (drones : Registry) (i : String) (now : ℝ) : Bool × Registry :=
  match lookupDrone i drones with
  | none => (false, drones)
  | some d =>
    if d.status = DroneStatus.flying ∨ d.status = DroneStatus.takingOff then
      (true, modifyEntry drones i (landMut now))
    else (false, drones)

/-- `DroneSimulator.emergency_stop`: unconditionally zero all velocities
and force every drone to Idle. -/
def emergency_stop (drones : Registry) : Registry :=
  drones.map fun kv =>
    (kv.1, { kv.2 with vx := 0, vy := 0, vz := 0, status := DroneStatus.idle })

/-- The `parameters` dictionary of `set_formation`, restricted to the keys
the source reads; a missing key stands for a dictionary without it
(`dict.get` supplies the default). -/
structure FormParams where
  spacing : Option ℝ
  radius : Option ℝ
  height : Option ℝ

/-- `DroneSimulator._calculate_formation_positions`. -/
noncomputable def calc_formation_positions (formation : String) (count : Nat)
    (p : FormParams) : List (ℝ × ℝ × ℝ) :=
  if formation = "line" then
    (List.range count).map fun (i : ℕ) =>
      (((i : ℝ) - ((count : ℝ) - 1) / 2) * p.spacing.getD 0.5, 0, 0.6)
  else if formation = "circle" then
    (List.range count).map fun (i : ℕ) =>
      let angle := 2 * Real.pi * (i : ℝ) / (count : ℝ)
      (p.radius.getD 1 * Real.cos angle, p.radius.getD 1 * Real.sin angle, p.height.getD 0.6)
  else if formation = "grid" then
    let cols := ⌈Real.sqrt (count : ℝ)⌉₊
    (List.range count).map fun (i : ℕ) =>
      let row := i / cols
      let col := i % cols
      (((col : ℝ) - ((cols : ℝ) - 1) / 2) * p.spacing.getD 0.5,
       ((row : ℝ) - (((count / cols : ℕ) : ℝ) - 1) / 2) * p.spacing.getD 0.5,
       p.height.getD 0.6)
  else if formation = "vshape" then
    (List.range count).map fun (i : ℕ) =>
      if i = 0 then (0, 0, p.height.getD 0.6)
      else
        let side : ℝ := if i % 2 = 1 then 1 else -1
        let row : ℕ := (i + 1) / 2
        ((row : ℝ) * p.spacing.getD 0.5, side * (row : ℝ) * p.spacing.getD 0.5 * 0.5,
         p.height.getD 0.6)
  else []

/-- The assignment loop of `set_formation`: flying drones consume the
solved positions in registry order; once positions run out, the remaining
flying drones keep their prior target. -/
def assign_targets : Registry → List (ℝ × ℝ × ℝ) → Registry
  | [], _ => []
  | (k, d) :: rest, ps =>
    if d.status = DroneStatus.flying then
      match ps with
      | [] => (k, d) :: assign_targets rest []
      | t :: ps' => (k, setTarget t.1 t.2.1 t.2.2 d) :: assign_targets rest ps'
    else (k, d) :: assign_targets rest ps

/-- `DroneSimulator.set_formation`. -/
noncomputable def set_formation (drones : Registry) (formation : String) (p : FormParams) :
    Bool × Registry :=
  let flyingCount := (drones.filter fun kv => kv.2.status = DroneStatus.flying).length
  if flyingCount = 0 then (false, drones)
  else (true, assign_targets drones (calc_formation_positions formation flyingCount p))

/-- `DroneSimulator._update_takeoff`. -/
noncomputable def update_takeoff (now : ℝ) (d : DroneState) : DroneState :=
  let elapsed := now - d.takeoff_start
  if d.takeoff_duration ≤ elapsed then
    { d with z := d.takeoff_height, vz := 0, status := DroneStatus.flying }
  else
    let progress := elapsed / d.takeoff_duration
    let tz := d.takeoff_height * progress
    let e := tz - d.z
    let vz' := min max_speed (max (-max_speed) (e * 2))
    { d with vz := vz', z := d.z + vz' * dt }

/-- `DroneSimulator._update_flying`. -/
noncomputable def update_flying (d : DroneState) : DroneState :=
  let dx := d.target_x - d.x
  let dy := d.target_y - d.y
  let dz := d.target_z - d.z
  let distance := Real.sqrt (dx ^ 2 + dy ^ 2 + dz ^ 2)
  if 0.05 < distance then
    let speed_factor := min 1 (distance / 0.1)
    let target_speed := max_speed * speed_factor
    let vx' := dx / distance * target_speed
    let vy' := dy / distance * target_speed
    let vz' := dz / distance * target_speed
    { d with vx := vx', vy := vy', vz := vz',
             x := d.x + vx' * dt, y := d.y + vy' * dt, z := d.z + vz' * dt }
  else
    { d with vx := 0, vy := 0, vz := 0 }

/-- `DroneSimulator._update_landing`. -/
noncomputable def update_landing (d : DroneState) : DroneState :=
  let dz := 0 - d.z
  if 0.05 < |dz| then
    let vz' := min max_speed (max (-max_speed) (dz * 2))
    { d with vz := vz', z := d.z + vz' * dt }
  else
    { d with z := 0, vz := 0, status := DroneStatus.idle }

/-- The battery-drain line of `_update_drones`. -/
noncomputable def battery_step (d : DroneState) : DroneState :=
  { d with battery := max 0 (d.battery - battery_drain_rate * dt) }

/-- The status dispatch of `_update_drones` (Idle and Error have no phase
update). -/
noncomputable def phase_step (now : ℝ) (d : DroneState) : DroneState :=
  match d.status with
  | DroneStatus.takingOff => update_takeoff now d
  | DroneStatus.flying => update_flying d
  | DroneStatus.landing => update_landing d
  | _ => d

/-- The sensor-noise lines of `_update_drones`. -/
def apply_noise (n : Noise) (d : DroneState) : DroneState :=
  { d with x := d.x + n.nx, y := d.y + n.ny, z := d.z + n.nz,
           vx := d.vx + n.nvx, vy := d.vy + n.nvy, vz := d.vz + n.nvz }

/-- The error checks of `_update_drones`: battery depletion, then the
workspace-bounds test `|x| > bounds or |y| > bounds or z > max_height`. -/
noncomputable def error_step (d : DroneState) : DroneState :=
  if d.battery ≤ 0 then { d with status := DroneStatus.error }
  else if workspace_bounds < |d.x| ∨ workspace_bounds < |d.y| ∨ max_height < d.z then
    { d with status := DroneStatus.error }
  else d

/-- One full per-drone tick of `_update_drones`. -/
noncomputable def update_drone (now : ℝ) (n : Noise) (d : DroneState) : DroneState :=
  { error_step (apply_noise n (phase_step now (battery_step d))) with last_update := now }

/-- One tick of `_update_drones` over the whole registry; the noise
environment supplies each drone's perturbation. -/
noncomputable def update_drones (now : ℝ) (ns : String → Noise) (drones : Registry) : Registry :=
  drones.map fun kv => (kv.1, update_drone now (ns kv.1) kv.2)

/-- The battery value registered under an identifier. -/
def batteryOf (drones : Registry) (i : String) : Option ℝ :=
  (lookupDrone i drones).map DroneState.battery

/-- The status value registered under an identifier. -/
def statusOf (drones : Registry) (i : String) : Option DroneStatus :=
  (lookupDrone i drones).map DroneState.status

/-! ### Concrete sample inputs used by witnesses and counterexamples -/

/-- The origin, used as a concrete start point. -/
def ptA : Pt := ⟨0, 0, 0⟩

/-- A concrete goal point on the x axis. -/
def ptB : Pt := ⟨1, 0, 0⟩

/-- A concrete obstacle far from the `ptA`-`ptB` segment. -/
def obsW : Pt := ⟨0, 5, 0⟩

/-- A drone in `error` status. -/
def droneErr : DroneState :=
  ⟨"d1", 0, 0, 0, 0, 0, 0, 50, DroneStatus.error, 0, 0, 0, 0, 0, 0, 0, 0⟩

/-- An idle drone whose altitude is below ground level. -/
def droneLow : DroneState :=
  ⟨"d1", 0, 0, -1, 0, 0, 0, 100, DroneStatus.idle, 0, 0, 0, 0, 0, 0, 0, 0⟩

/-- An idle drone far outside the workspace on the x axis. -/
def droneFar : DroneState :=
  ⟨"d1", 5, 0, 0, 0, 0, 0, 100, DroneStatus.idle, 0, 0, 0, 0, 0, 0, 0, 0⟩

/-- A drone mid-takeoff: commanded height 0.6, duration 2, started at 0. -/
def droneT : DroneState :=
  ⟨"d1", 0, 0, 0, 0, 0, 0, 100, DroneStatus.takingOff, 0, 0, 0, 0.6, 0, 2, 0, 0⟩

/-- Formation parameters carrying an explicit height of 1. -/
def paramsH1 : FormParams := ⟨some 0.5, none, some 1⟩

/-! ### Helper lemmas about the planner -/

theorem closer_step_ne_none (a b : Pt) (acc : Option (Pt × ℝ)) (o : Pt) :
    closer_step a b acc o ≠ none := by
  unfold closer_step
  rcases acc with _ | ⟨c, cd⟩
  · exact Option.noConfusion
  · dsimp only
    split <;> exact Option.noConfusion

/-- Unfolding equation of `find_detour_path` when no obstacle was selected
(empty obstacle list). -/
theorem find_detour_path_none (sr : ℝ) (fuel : Nat) (s g : Pt) (obstacles : List Pt)
    (hco : closest_obstacle s g obstacles = none) :
    find_detour_path sr (fuel + 1) s g obstacles = some [s, g] := by
  rw [find_detour_path, hco]

/-- Unfolding equation of `find_detour_path` when obstacle `ob` was
selected as closest to the direct segment. -/
theorem find_detour_path_some (sr : ℝ) (fuel : Nat) (s g : Pt) (obstacles : List Pt) (ob : Pt)
    (hco : closest_obstacle s g obstacles = some ob) :
    find_detour_path sr (fuel + 1) s g obstacles =
      (if is_path_clear sr s (calculate_detour_midpoint sr s g ob) obstacles ∧
          is_path_clear sr (calculate_detour_midpoint sr s g ob) g obstacles then
        some [s, calculate_detour_midpoint sr s g ob, g]
      else
        (if is_path_clear sr s (calculate_detour_midpoint sr s g ob) obstacles then
          some [s, calculate_detour_midpoint sr s g ob]
         else find_detour_path sr fuel s (calculate_detour_midpoint sr s g ob) obstacles).bind
          fun d1 =>
            (if is_path_clear sr (calculate_detour_midpoint sr s g ob) g obstacles then
              some [calculate_detour_midpoint sr s g ob, g]
             else find_detour_path sr fuel (calculate_detour_midpoint sr s g ob) g obstacles).map
              fun d2 => d1.dropLast ++ d2) := by
  rw [find_detour_path, hco]

theorem foldl_closer_eq_none (a b : Pt) :
    ∀ (l : List Pt) (acc : Option (Pt × ℝ)),
      l.foldl (closer_step a b) acc = none → l = [] ∧ acc = none := by
  intro l
  induction l with
  | nil => intro acc h; exact ⟨rfl, h⟩
  | cons o rest ih =>
    intro acc h
    rw [List.foldl_cons] at h
    exact absurd (ih _ h).2 (closer_step_ne_none a b acc o)

theorem closest_obstacle_eq_none (a b : Pt) (obstacles : List Pt)
    (h : closest_obstacle a b obstacles = none) : obstacles = [] := by
  unfold closest_obstacle at h
  rw [Option.map_eq_none'] at h
  exact (foldl_closer_eq_none a b obstacles none h).1

/-- Soundness of the fuel-bounded detour search: any returned path starts
at `s`, ends at `g`, has at least two waypoints, and each of its segments
keeps every obstacle at distance at least the safety radius. -/
theorem find_detour_sound (sr : ℝ) :
    ∀ (fuel : Nat) (s g : Pt) (obstacles : List Pt) (p : List Pt),
      find_detour_path sr fuel s g obstacles = some p →
      p.head? = some s ∧ p.getLast? = some g ∧ 2 ≤ p.length ∧
        List.Chain' (fun u v => is_path_clear sr u v obstacles) p := by
  intro fuel
  induction fuel with
  | zero =>
    intro s g obstacles p h
    exact absurd h (by simp [find_detour_path])
  | succ fuel ih =>
    intro s g obstacles p h
    cases hco : closest_obstacle s g obstacles with
    | none =>
      rw [find_detour_path_none sr fuel s g obstacles hco] at h
      have hobs : obstacles = [] := closest_obstacle_eq_none s g obstacles hco
      obtain rfl : [s, g] = p := Option.some.inj h
      subst hobs
      refine ⟨rfl, rfl, by simp, ?_⟩
      exact List.chain'_cons.mpr ⟨fun o ho => absurd ho (List.not_mem_nil o),
        List.chain'_singleton g⟩
    | some ob =>
      rw [find_detour_path_some sr fuel s g obstacles ob hco] at h
      set m := calculate_detour_midpoint sr s g ob with hm
      by_cases hc : is_path_clear sr s m obstacles ∧ is_path_clear sr m g obstacles
      · rw [if_pos hc] at h
        obtain rfl : [s, m, g] = p := Option.some.inj h
        refine ⟨rfl, rfl, by simp, ?_⟩
        exact List.chain'_cons.mpr ⟨hc.1,
          List.chain'_cons.mpr ⟨hc.2, List.chain'_singleton g⟩⟩
      · rw [if_neg hc] at h
        rw [Option.bind_eq_some] at h
        obtain ⟨d1, h1, h2⟩ := h
        rw [Option.map_eq_some'] at h2
        obtain ⟨d2, h2, rfl⟩ := h2
        have H1 : d1.head? = some s ∧ d1.getLast? = some m ∧ 2 ≤ d1.length ∧
            List.Chain' (fun u v => is_path_clear sr u v obstacles) d1 := by
          by_cases hc1 : is_path_clear sr s m obstacles
          · rw [if_pos hc1] at h1
            obtain rfl : [s, m] = d1 := Option.some.inj h1
            exact ⟨rfl, rfl, by simp, List.chain'_cons.mpr ⟨hc1, List.chain'_singleton m⟩⟩
          · rw [if_neg hc1] at h1
            exact ih s m obstacles d1 h1
        have H2 : d2.head? = some m ∧ d2.getLast? = some g ∧ 2 ≤ d2.length ∧
            List.Chain' (fun u v => is_path_clear sr u v obstacles) d2 := by
          by_cases hc2 : is_path_clear sr m g obstacles
          · rw [if_pos hc2] at h2
            obtain rfl : [m, g] = d2 := Option.some.inj h2
            exact ⟨rfl, rfl, by simp, List.chain'_cons.mpr ⟨hc2, List.chain'_singleton g⟩⟩
          · rw [if_neg hc2] at h2
            exact ih m g obstacles d2 h2
        obtain ⟨h1h, h1l, h1n, h1c⟩ := H1
        obtain ⟨h2h, h2l, h2n, h2c⟩ := H2
        have hd2ne : d2 ≠ [] := by
          intro hh; rw [hh] at h2n; simp at h2n
        have hd1eq : d1.dropLast ++ [m] = d1 :=
          List.dropLast_append_getLast? m (Option.mem_def.mpr h1l)
        have hdlne : d1.dropLast ≠ [] := by
          intro hh
          have hlen := congrArg List.length hd1eq
          rw [hh] at hlen
          simp at hlen
          rw [← hlen] at h1n
          simp at h1n
        have hchsplit := h1c
        rw [← hd1eq, List.chain'_append] at hchsplit
        obtain ⟨hchdl, _, hjun⟩ := hchsplit
        refine ⟨?_, ?_, ?_, ?_⟩
        · rw [List.head?_append_of_ne_nil _ hdlne]
          have : (d1.dropLast ++ [m]).head? = d1.dropLast.head? :=
            List.head?_append_of_ne_nil _ hdlne
          rw [hd1eq, h1h] at this
          exact this.symm
        · rw [List.getLast?_append_of_ne_nil _ hd2ne]
          exact h2l
        · have hlen := congrArg List.length hd1eq
          rw [List.length_append] at hlen ⊢
          omega
        · rw [List.chain'_append]
          refine ⟨hchdl, h2c, ?_⟩
          intro x hx y hy
          have hy' : y = m := by
            rw [Option.mem_def, h2h] at hy
            exact (Option.some.inj hy).symm
          subst hy'
          exact hjun x hx m (Option.mem_def.mpr rfl)

/-- Adjacent-pair consequence of `List.Chain'`. -/
theorem chain'_zip_pairs {R : Pt → Pt → Prop} :
    ∀ {l : List Pt}, List.Chain' R l → ∀ ab ∈ l.zip l.tail, R ab.1 ab.2 := by
  intro l
  induction l with
  | nil => intro _ ab hab; simp at hab
  | cons a t iht =>
    cases t with
    | nil => intro _ ab hab; simp at hab
    | cons b t' =>
      intro hch ab hab
      rw [List.chain'_cons] at hch
      rw [show (a :: b :: t').tail = b :: t' from rfl, List.zip_cons_cons,
        List.mem_cons] at hab
      cases hab with
      | inl hab => rw [hab]; exact hch.1
      | inr hab => exact iht hch.2 ab hab

theorem le_foldl_min_inner (sr : ℝ) (f : Pt → ℝ) :
    ∀ (l : List Pt) (acc : EReal), (sr : EReal) ≤ acc → (∀ o ∈ l, sr ≤ f o) →
      (sr : EReal) ≤ l.foldl (fun a2 o => min a2 ((f o : ℝ) : EReal)) acc := by
  intro l
  induction l with
  | nil => intro acc hacc _; exact hacc
  | cons o rest ih =>
    intro acc hacc hall
    rw [List.foldl_cons]
    refine ih _ (le_min hacc ?_) fun o' ho' => hall o' (List.mem_cons_of_mem o ho')
    exact EReal.coe_le_coe_iff.mpr (hall o (List.mem_cons_self o rest))

theorem le_min_separation (sr : ℝ) (path obstacles : List Pt)
    (h : ∀ ab ∈ path.zip path.tail, ∀ o ∈ obstacles,
      sr ≤ point_to_line_distance ab.1 ab.2 o) :
    (sr : EReal) ≤ min_separation path obstacles := by
  unfold min_separation
  have haux : ∀ (prs : List (Pt × Pt)) (acc : EReal), (sr : EReal) ≤ acc →
      (∀ ab ∈ prs, ∀ o ∈ obstacles, sr ≤ point_to_line_distance ab.1 ab.2 o) →
      (sr : EReal) ≤ prs.foldl
        (fun acc2 ab => obstacles.foldl
          (fun a2 o => min a2 ((point_to_line_distance ab.1 ab.2 o : ℝ) : EReal)) acc2)
        acc := by
    intro prs
    induction prs with
    | nil => intro acc hacc _; exact hacc
    | cons ab rest ih =>
      intro acc hacc hall
      rw [List.foldl_cons]
      refine ih _ ?_ fun ab' hab' => hall ab' (List.mem_cons_of_mem ab hab')
      exact le_foldl_min_inner sr _ obstacles acc hacc
        (hall ab (List.mem_cons_self ab rest))
  exact haux _ ⊤ le_top h

/-- C1: every path returned by `plan_path` on which the recursive detour
search terminates (no recursion exhaustion, i.e. the fuel-bounded search
returns a value) is validated by `validate_path` with a minimum
separation of at least the safety radius. -/
theorem plan_path_safe_c1 (sr : ℝ) (fuel : Nat) (s g : Pt) (obstacles : List Pt)
    (p : List Pt) (h : plan_path sr fuel s g obstacles = some p) :
    (sr : EReal) ≤ (validate_path sr p obstacles).minSeparation := by
  have hch : List.Chain' (fun u v => is_path_clear sr u v obstacles) p := by
    unfold plan_path at h
    by_cases hc : is_path_clear sr s g obstacles
    · rw [if_pos hc] at h
      obtain rfl : [s, g] = p := Option.some.inj h
      exact List.chain'_cons.mpr ⟨hc, List.chain'_singleton g⟩
    · rw [if_neg hc] at h
      exact (find_detour_sound sr fuel s g obstacles p h).2.2.2
  have hsep : ∀ ab ∈ p.zip p.tail, ∀ o ∈ obstacles,
      sr ≤ point_to_line_distance ab.1 ab.2 o := by
    intro ab hab o ho
    exact not_lt.mp (chain'_zip_pairs hch ab hab o ho)
  have hms : (sr : EReal) ≤ min_separation p obstacles := le_min_separation sr p obstacles hsep
  unfold validate_path
  by_cases hl : p.length < 2
  · rw [if_pos hl]; exact le_top
  · rw [if_neg hl]; exact hms

/-- C1 witness: a concrete terminating run of the planner, validated. -/
theorem plan_path_safe_c1_witness :
    plan_path 0.3 1 ⟨0, 0, 0⟩ ⟨1, 0, 0⟩ [] = some [⟨0, 0, 0⟩, ⟨1, 0, 0⟩] ∧
    ((0.3 : ℝ) : EReal) ≤
      (validate_path 0.3 [⟨0, 0, 0⟩, ⟨1, 0, 0⟩] []).minSeparation := by
  have hplan : plan_path 0.3 1 ⟨0, 0, 0⟩ ⟨1, 0, 0⟩ [] = some [⟨0, 0, 0⟩, ⟨1, 0, 0⟩] := by
    have hc : is_path_clear 0.3 ⟨0, 0, 0⟩ ⟨1, 0, 0⟩ [] :=
      fun o ho => absurd ho (List.not_mem_nil o)
    unfold plan_path
    rw [if_pos hc]
  exact ⟨hplan, plan_path_safe_c1 0.3 1 _ _ _ _ hplan⟩

/-- C4: when every obstacle keeps at least the safety radius from the
direct start-goal segment (clamped-projection segment distance),
`plan_path` returns exactly the two-point path `[start, goal]`. -/
theorem plan_path_direct_c4 (sr : ℝ) (fuel : Nat) (s g : Pt) (obstacles : List Pt)
    (h : ∀ o ∈ obstacles, sr ≤ point_to_line_distance s g o) :
    plan_path sr fuel s g obstacles = some [s, g] := by
  have hc : is_path_clear sr s g obstacles := fun o ho => not_lt.mpr (h o ho)
  unfold plan_path
  rw [if_pos hc]

/-- C4 witness: a concrete clear scene where the planner goes direct. -/
theorem plan_path_direct_c4_witness :
    (∀ o ∈ [obsW], (0.3 : ℝ) ≤ point_to_line_distance ptA ptB o) ∧
    plan_path 0.3 0 ptA ptB [obsW] = some [ptA, ptB] := by
  have hd : (0.3 : ℝ) ≤ point_to_line_distance ptA ptB obsW := by
    unfold point_to_line_distance ptA ptB obsW
    norm_num [min_def, max_def]
    rw [Real.le_sqrt (by norm_num) (by norm_num)]
    norm_num
  have hall : ∀ o ∈ [obsW], (0.3 : ℝ) ≤ point_to_line_distance ptA ptB o := by
    intro o ho
    rw [List.mem_singleton] at ho
    rw [ho]
    exact hd
  exact ⟨hall, plan_path_direct_c4 0.3 0 ptA ptB [obsW] hall⟩

theorem min_separation_nil_obstacles (path : List Pt) : min_separation path [] = ⊤ := by
  unfold min_separation
  suffices h : ∀ (prs : List (Pt × Pt)) (acc : EReal),
      prs.foldl (fun acc2 ab =>
        List.foldl (fun a2 o => min a2 ((point_to_line_distance ab.1 ab.2 o : ℝ) : EReal))
          acc2 []) acc = acc from h _ ⊤
  intro prs
  induction prs with
  | nil => intro acc; rfl
  | cons ab rest ih => intro acc; rw [List.foldl_cons]; exact ih acc

theorem foldl_add_eq_sum {α : Type _} (f : α → ℝ) :
    ∀ (l : List α) (c : ℝ), l.foldl (fun acc x => acc + f x) c = c + (l.map f).sum := by
  intro l
  induction l with
  | nil => intro c; simp
  | cons x rest ih =>
    intro c
    rw [List.foldl_cons, ih, List.map_cons, List.sum_cons]
    ring

/-- C10: for a path of at least two waypoints and an empty obstacle list,
`validate_path` reports valid and success true, minimum separation
positive infinity, the waypoint count, and the summed consecutive
Euclidean distances as path length. -/
theorem validate_path_empty_c10 (sr : ℝ) (path : List Pt) (h2 : 2 ≤ path.length) :
    (validate_path sr path []).valid = true ∧
    (validate_path sr path []).success = true ∧
    (validate_path sr path []).minSeparation = ⊤ ∧
    (validate_path sr path []).waypoints = some path.length ∧
    (validate_path sr path []).pathLength =
      ((path.zip path.tail).map fun ab => dist3 ab.1 ab.2).sum := by
  have hlt : ¬ path.length < 2 := not_lt.mpr h2
  have hms : min_separation path [] = ⊤ := min_separation_nil_obstacles path
  unfold validate_path
  rw [if_neg hlt]
  refine ⟨?_, ?_, hms, rfl, ?_⟩
  · show decide ((sr : EReal) ≤ min_separation path []) = true
    exact decide_eq_true (by rw [hms]; exact le_top)
  · show decide ((sr : EReal) ≤ min_separation path []) = true
    exact decide_eq_true (by rw [hms]; exact le_top)
  · show path_length_of path = _
    unfold path_length_of
    rw [foldl_add_eq_sum, zero_add]

/-- C10 witness: a concrete two-waypoint path with no obstacles. -/
theorem validate_path_empty_c10_witness :
    2 ≤ ([ptA, ptB] : List Pt).length ∧
    ((validate_path 0.3 [ptA, ptB] []).valid = true ∧
     (validate_path 0.3 [ptA, ptB] []).success = true ∧
     (validate_path 0.3 [ptA, ptB] []).minSeparation = ⊤ ∧
     (validate_path 0.3 [ptA, ptB] []).waypoints = some ([ptA, ptB] : List Pt).length ∧
     (validate_path 0.3 [ptA, ptB] []).pathLength =
       ((([ptA, ptB] : List Pt).zip ([ptA, ptB] : List Pt).tail).map
         fun ab => dist3 ab.1 ab.2).sum) :=
  ⟨by decide, validate_path_empty_c10 0.3 [ptA, ptB] (by decide)⟩

/-! ### Helper lemmas about the simulator -/

theorem lookupDrone_cons (k : String) (d : DroneState) (rest : Registry) (j : String) :
    lookupDrone j ((k, d) :: rest) = if k = j then some d else lookupDrone j rest := rfl

theorem lookupDrone_modifyEntry (i j : String) (f : DroneState → DroneState) :
    ∀ drones : Registry,
      lookupDrone j (modifyEntry drones i f) =
        (lookupDrone j drones).map fun d => if j = i then f d else d := by
  intro drones
  induction drones with
  | nil => rfl
  | cons kv rest ih =>
    obtain ⟨k, d⟩ := kv
    unfold modifyEntry at ih ⊢
    rw [List.map_cons]
    by_cases hk : k = i
    · rw [if_pos hk]
      rw [lookupDrone_cons, lookupDrone_cons]
      by_cases hj : k = j
      · rw [if_pos hj, if_pos hj, Option.map_some']
        have hji : j = i := by rw [← hj, hk]
        rw [if_pos hji]
      · rw [if_neg hj, if_neg hj]
        exact ih
    · rw [if_neg hk]
      rw [lookupDrone_cons, lookupDrone_cons]
      by_cases hj : k = j
      · rw [if_pos hj, if_pos hj, Option.map_some']
        have hji : ¬ j = i := by rw [← hj]; exact hk
        rw [if_neg hji]
      · rw [if_neg hj, if_neg hj]
        exact ih

theorem statusOf_lookup_eq (drones : Registry) (j : String) (d : DroneState)
    (hj : lookupDrone j drones = some d) : statusOf drones j = some d.status := by
  unfold statusOf
  rw [hj, Option.map_some']

theorem statusOf_modifyEntry_ne (drones : Registry) (i j : String)
    (f : DroneState → DroneState) (hij : j ≠ i) :
    statusOf (modifyEntry drones i f) j = statusOf drones j := by
  unfold statusOf
  rw [lookupDrone_modifyEntry]
  cases lookupDrone j drones with
  | none => rfl
  | some d =>
    rw [Option.map_some', Option.map_some', Option.map_some']
    rw [if_neg hij]

theorem statusOf_modifyEntry_pres (drones : Registry) (i j : String)
    (f : DroneState → DroneState) (hf : ∀ d, (f d).status = d.status) :
    statusOf (modifyEntry drones i f) j = statusOf drones j := by
  unfold statusOf
  rw [lookupDrone_modifyEntry]
  cases lookupDrone j drones with
  | none => rfl
  | some d =>
    rw [Option.map_some', Option.map_some', Option.map_some']
    by_cases hij : j = i
    · rw [if_pos hij, hf]
    · rw [if_neg hij]

theorem batteryOf_lookup_eq (drones : Registry) (j : String) (d : DroneState)
    (hj : lookupDrone j drones = some d) : batteryOf drones j = some d.battery := by
  unfold batteryOf
  rw [hj, Option.map_some']

theorem batteryOf_modifyEntry_pres (drones : Registry) (i j : String)
    (f : DroneState → DroneState) (hf : ∀ d, (f d).battery = d.battery) :
    batteryOf (modifyEntry drones i f) j = batteryOf drones j := by
  unfold batteryOf
  rw [lookupDrone_modifyEntry]
  cases lookupDrone j drones with
  | none => rfl
  | some d =>
    rw [Option.map_some', Option.map_some', Option.map_some']
    by_cases hij : j = i
    · rw [if_pos hij, hf]
    · rw [if_neg hij]

theorem takeoff_eq_none (drones : Registry) (i : String) (h du now : ℝ)
    (hi : lookupDrone i drones = none) :
    takeoff drones i h du now = (false, drones) := by
  unfold takeoff
  rw [hi]

theorem takeoff_eq_go (drones : Registry) (i : String) (h du now : ℝ) (d : DroneState)
    (hi : lookupDrone i drones = some d) (hs : d.status = DroneStatus.idle) :
    takeoff drones i h du now = (true, modifyEntry drones i (takeoffMut h du now)) := by
  unfold takeoff
  rw [hi]
  dsimp only
  rw [if_pos hs]

theorem takeoff_eq_stay (drones : Registry) (i : String) (h du now : ℝ) (d : DroneState)
    (hi : lookupDrone i drones = some d) (hs : ¬ d.status = DroneStatus.idle) :
    takeoff drones i h du now = (false, drones) := by
  unfold takeoff
  rw [hi]
  dsimp only
  rw [if_neg hs]

theorem goto_eq_none (drones : Registry) (i : String) (x y z s : ℝ)
    (hi : lookupDrone i drones = none) :
    goto drones i x y z s = (false, drones) := by
  unfold goto
  rw [hi]

theorem goto_eq_go (drones : Registry) (i : String) (x y z s : ℝ) (d : DroneState)
    (hi : lookupDrone i drones = some d)
    (hs : d.status = DroneStatus.flying ∨ d.status = DroneStatus.takingOff) :
    goto drones i x y z s = (true, modifyEntry drones i (setTarget x y z)) := by
  unfold goto
  rw [hi]
  dsimp only
  rw [if_pos hs]

theorem goto_eq_stay (drones : Registry) (i : String) (x y z s : ℝ) (d : DroneState)
    (hi : lookupDrone i drones = some d)
    (hs : ¬ (d.status = DroneStatus.flying ∨ d.status = DroneStatus.takingOff)) :
    goto drones i x y z s = (false, drones) := by
  unfold goto
  rw [hi]
  dsimp only
  rw [if_neg hs]

theorem land_eq_none (drones : Registry) (i : String) (now : ℝ)
    (hi : lookupDrone i drones = none) :
    land drones i now = (false, drones) := by
  unfold land
  rw [hi]

theorem land_eq_go (drones : Registry) (i : String) (now : ℝ) (d : DroneState)
    (hi : lookupDrone i drones = some d)
    (hs : d.status = DroneStatus.flying ∨ d.status = DroneStatus.takingOff) :
    land drones i now = (true, modifyEntry drones i (landMut now)) := by
  unfold land
  rw [hi]
  dsimp only
  rw [if_pos hs]

theorem land_eq_stay (drones : Registry) (i : String) (now : ℝ) (d : DroneState)
    (hi : lookupDrone i drones = some d)
    (hs : ¬ (d.status = DroneStatus.flying ∨ d.status = DroneStatus.takingOff)) :
    land drones i now = (false, drones) := by
  unfold land
  rw [hi]
  dsimp only
  rw [if_neg hs]

theorem statusOf_assign_targets (drones : Registry) :
    ∀ (ps : List (ℝ × ℝ × ℝ)) (j : String),
      statusOf (assign_targets drones ps) j = statusOf drones j := by
  induction drones with
  | nil => intro ps j; rfl
  | cons kv rest ih =>
    intro ps j
    obtain ⟨k, d⟩ := kv
    unfold assign_targets
    by_cases hf : d.status = DroneStatus.flying
    · rw [if_pos hf]
      cases ps with
      | nil =>
        show statusOf ((k, d) :: assign_targets rest []) j = _
        unfold statusOf
        rw [lookupDrone_cons, lookupDrone_cons]
        by_cases hk : k = j
        · rw [if_pos hk, if_pos hk]
        · rw [if_neg hk, if_neg hk]
          exact ih [] j
      | cons t ps' =>
        show statusOf ((k, setTarget t.1 t.2.1 t.2.2 d) :: assign_targets rest ps') j = _
        unfold statusOf
        rw [lookupDrone_cons, lookupDrone_cons]
        by_cases hk : k = j
        · rw [if_pos hk, if_pos hk]
          rfl
        · rw [if_neg hk, if_neg hk]
          exact ih ps' j
    · rw [if_neg hf]
      show statusOf ((k, d) :: assign_targets rest ps) j = _
      unfold statusOf
      rw [lookupDrone_cons, lookupDrone_cons]
      by_cases hk : k = j
      · rw [if_pos hk, if_pos hk]
      · rw [if_neg hk, if_neg hk]
        exact ih ps j

theorem batteryOf_assign_targets (drones : Registry) :
    ∀ (ps : List (ℝ × ℝ × ℝ)) (j : String),
      batteryOf (assign_targets drones ps) j = batteryOf drones j := by
  induction drones with
  | nil => intro ps j; rfl
  | cons kv rest ih =>
    intro ps j
    obtain ⟨k, d⟩ := kv
    unfold assign_targets
    by_cases hf : d.status = DroneStatus.flying
    · rw [if_pos hf]
      cases ps with
      | nil =>
        show batteryOf ((k, d) :: assign_targets rest []) j = _
        unfold batteryOf
        rw [lookupDrone_cons, lookupDrone_cons]
        by_cases hk : k = j
        · rw [if_pos hk, if_pos hk]
        · rw [if_neg hk, if_neg hk]
          exact ih [] j
      | cons t ps' =>
        show batteryOf ((k, setTarget t.1 t.2.1 t.2.2 d) :: assign_targets rest ps') j = _
        unfold batteryOf
        rw [lookupDrone_cons, lookupDrone_cons]
        by_cases hk : k = j
        · rw [if_pos hk, if_pos hk]
          rfl
        · rw [if_neg hk, if_neg hk]
          exact ih ps' j
    · rw [if_neg hf]
      show batteryOf ((k, d) :: assign_targets rest ps) j = _
      unfold batteryOf
      rw [lookupDrone_cons, lookupDrone_cons]
      by_cases hk : k = j
      · rw [if_pos hk, if_pos hk]
      · rw [if_neg hk, if_neg hk]
        exact ih ps j

theorem statusOf_set_formation (drones : Registry) (f : String) (p : FormParams) (j : String) :
    statusOf (set_formation drones f p).2 j = statusOf drones j := by
  simp only [set_formation]
  split
  · rfl
  · exact statusOf_assign_targets drones _ j

theorem batteryOf_set_formation (drones : Registry) (f : String) (p : FormParams) (j : String) :
    batteryOf (set_formation drones f p).2 j = batteryOf drones j := by
  simp only [set_formation]
  split
  · rfl
  · exact batteryOf_assign_targets drones _ j

theorem batteryOf_emergency_stop (j : String) :
    ∀ drones : Registry, batteryOf (emergency_stop drones) j = batteryOf drones j := by
  intro drones
  induction drones with
  | nil => rfl
  | cons kv rest ih =>
    obtain ⟨k, d⟩ := kv
    unfold emergency_stop at ih ⊢
    rw [List.map_cons]
    unfold batteryOf
    rw [lookupDrone_cons, lookupDrone_cons]
    by_cases hk : k = j
    · rw [if_pos hk, if_pos hk]
      rfl
    · rw [if_neg hk, if_neg hk]
      exact ih

theorem statusOf_emergency_stop (j : String) :
    ∀ drones : Registry, ∀ d : DroneState, lookupDrone j drones = some d →
      statusOf (emergency_stop drones) j = some DroneStatus.idle := by
  intro drones
  induction drones with
  | nil => intro d hd; exact Option.noConfusion hd
  | cons kv rest ih =>
    intro d hd
    obtain ⟨k, d0⟩ := kv
    unfold emergency_stop at ih ⊢
    rw [List.map_cons]
    unfold statusOf
    rw [lookupDrone_cons]
    rw [lookupDrone_cons] at hd
    by_cases hk : k = j
    · rw [if_pos hk, Option.map_some']
    · rw [if_neg hk]
      rw [if_neg hk] at hd
      exact ih d hd

theorem update_takeoff_battery (now : ℝ) (d : DroneState) :
    (update_takeoff now d).battery = d.battery := by
  unfold update_takeoff
  dsimp only
  split <;> rfl

theorem update_flying_battery (d : DroneState) :
    (update_flying d).battery = d.battery := by
  unfold update_flying
  dsimp only
  split <;> rfl

theorem update_landing_battery (d : DroneState) :
    (update_landing d).battery = d.battery := by
  unfold update_landing
  dsimp only
  split <;> rfl

theorem phase_step_battery (now : ℝ) (d : DroneState) :
    (phase_step now d).battery = d.battery := by
  unfold phase_step
  cases hs : d.status with
  | takingOff => exact update_takeoff_battery now d
  | flying => exact update_flying_battery d
  | landing => exact update_landing_battery d
  | idle => rfl
  | error => rfl

theorem error_step_battery (d : DroneState) : (error_step d).battery = d.battery := by
  unfold error_step
  split
  · rfl
  · split <;> rfl

theorem error_step_x (d : DroneState) : (error_step d).x = d.x := by
  unfold error_step
  split
  · rfl
  · split <;> rfl

theorem error_step_y (d : DroneState) : (error_step d).y = d.y := by
  unfold error_step
  split
  · rfl
  · split <;> rfl

theorem error_step_z (d : DroneState) : (error_step d).z = d.z := by
  unfold error_step
  split
  · rfl
  · split <;> rfl

theorem error_step_status_or (d : DroneState) :
    (error_step d).status = DroneStatus.error ∨ (error_step d).status = d.status := by
  unfold error_step
  split
  · exact Or.inl rfl
  · split
    · exact Or.inl rfl
    · exact Or.inr rfl

theorem phase_step_error (now : ℝ) (d : DroneState) (hd : d.status = DroneStatus.error) :
    phase_step now d = d := by
  unfold phase_step
  rw [hd]

theorem update_drone_battery (now : ℝ) (n : Noise) (d : DroneState) :
    (update_drone now n d).battery = max 0 (d.battery - battery_drain_rate * dt) := by
  show (error_step (apply_noise n (phase_step now (battery_step d)))).battery = _
  rw [error_step_battery]
  show (phase_step now (battery_step d)).battery = _
  rw [phase_step_battery]
  rfl

theorem update_drone_error_stays (now : ℝ) (n : Noise) (d : DroneState)
    (hd : d.status = DroneStatus.error) :
    (update_drone now n d).status = DroneStatus.error := by
  show (error_step (apply_noise n (phase_step now (battery_step d)))).status = _
  have hbs : (battery_step d).status = DroneStatus.error := hd
  rw [phase_step_error now (battery_step d) hbs]
  rcases error_step_status_or (apply_noise n (battery_step d)) with h | h
  · exact h
  · rw [h]
    exact hbs

/-- C2 counterexample: `emergency_stop` moves an Error drone back to Idle,
so Error is not preserved by every command of a run, contrary to the
claim. -/
theorem error_terminal_c2_counterexample :
    droneErr.status = DroneStatus.error ∧
    statusOf (emergency_stop [("d1", droneErr)]) "d1" = some DroneStatus.idle := by
  refine ⟨rfl, ?_⟩
  rfl

/-- C2 (amended): Error is terminal under tick updates and the takeoff,
goto, land and set_formation commands; only emergency_stop (which forces
Idle unconditionally) and reset remove it. -/
theorem error_terminal_c2_amended :
    (∀ (now : ℝ) (n : Noise) (d : DroneState), d.status = DroneStatus.error →
      (update_drone now n d).status = DroneStatus.error) ∧
    (∀ (drones : Registry) (j : String) (d : DroneState), lookupDrone j drones = some d →
      d.status = DroneStatus.error →
      (∀ (i : String) (h du now : ℝ),
        statusOf (takeoff drones i h du now).2 j = some DroneStatus.error) ∧
      (∀ (i : String) (x y z s : ℝ),
        statusOf (goto drones i x y z s).2 j = some DroneStatus.error) ∧
      (∀ (i : String) (now : ℝ),
        statusOf (land drones i now).2 j = some DroneStatus.error) ∧
      (∀ (f : String) (p : FormParams),
        statusOf (set_formation drones f p).2 j = some DroneStatus.error)) := by
  constructor
  · exact update_drone_error_stays
  · intro drones j d hj hd
    have hstat : statusOf drones j = some DroneStatus.error := by
      rw [statusOf_lookup_eq drones j d hj, hd]
    refine ⟨?_, ?_, ?_, ?_⟩
    · intro i h du now
      cases hi : lookupDrone i drones with
      | none =>
        rw [takeoff_eq_none drones i h du now hi]
        exact hstat
      | some di =>
        by_cases hs : di.status = DroneStatus.idle
        · rw [takeoff_eq_go drones i h du now di hi hs]
          by_cases hij : j = i
          · subst hij
            rw [hj] at hi
            obtain rfl : di = d := (Option.some.inj hi).symm
            rw [hd] at hs
            exact DroneStatus.noConfusion hs
          · rw [statusOf_modifyEntry_ne drones i j _ hij]
            exact hstat
        · rw [takeoff_eq_stay drones i h du now di hi hs]
          exact hstat
    · intro i x y z s
      cases hi : lookupDrone i drones with
      | none =>
        rw [goto_eq_none drones i x y z s hi]
        exact hstat
      | some di =>
        by_cases hs : di.status = DroneStatus.flying ∨ di.status = DroneStatus.takingOff
        · rw [goto_eq_go drones i x y z s di hi hs]
          rw [statusOf_modifyEntry_pres drones i j (setTarget x y z) fun d0 => rfl]
          exact hstat
        · rw [goto_eq_stay drones i x y z s di hi hs]
          exact hstat
    · intro i now
      cases hi : lookupDrone i drones with
      | none =>
        rw [land_eq_none drones i now hi]
        exact hstat
      | some di =>
        by_cases hs : di.status = DroneStatus.flying ∨ di.status = DroneStatus.takingOff
        · rw [land_eq_go drones i now di hi hs]
          by_cases hij : j = i
          · subst hij
            rw [hj] at hi
            obtain rfl : di = d := (Option.some.inj hi).symm
            rcases hs with h1 | h1 <;> rw [hd] at h1 <;> exact DroneStatus.noConfusion h1
          · rw [statusOf_modifyEntry_ne drones i j _ hij]
            exact hstat
        · rw [land_eq_stay drones i now di hi hs]
          exact hstat
    · intro f p
      rw [statusOf_set_formation drones f p j]
      exact hstat

/-- C2 witness: a concrete Error drone survives a tick and all four
state-preserving commands. -/
theorem error_terminal_c2_amended_witness :
    (droneErr.status = DroneStatus.error ∧
      lookupDrone "d1" [("d1", droneErr)] = some droneErr) ∧
    (update_drone 0 noise0 droneErr).status = DroneStatus.error ∧
    statusOf (takeoff [("d1", droneErr)] "d1" 0.6 2 0).2 "d1" = some DroneStatus.error ∧
    statusOf (goto [("d1", droneErr)] "d1" 1 1 1 0.5).2 "d1" = some DroneStatus.error ∧
    statusOf (land [("d1", droneErr)] "d1" 0).2 "d1" = some DroneStatus.error ∧
    statusOf (set_formation [("d1", droneErr)] "line" paramsH1).2 "d1" =
      some DroneStatus.error := by
  have hj : lookupDrone "d1" [("d1", droneErr)] = some droneErr := by
    rw [lookupDrone_cons, if_pos rfl]
  have hd : droneErr.status = DroneStatus.error := rfl
  have H := error_terminal_c2_amended.2 [("d1", droneErr)] "d1" droneErr hj hd
  exact ⟨⟨hd, hj⟩, error_terminal_c2_amended.1 0 noise0 droneErr hd,
    H.1 "d1" 0.6 2 0, H.2.1 "d1" 1 1 1 0.5, H.2.2.1 "d1" 0, H.2.2.2 "line" paramsH1⟩

/-- C3 counterexample: the error check tests only `z > max_height`, never
`z < 0`; a drone one metre below ground survives the tick with status
Idle. -/
theorem bounds_error_c3_counterexample :
    (update_drone 0 noise0 droneLow).z < 0 ∧
    (update_drone 0 noise0 droneLow).status = DroneStatus.idle := by
  have hb : ¬ (apply_noise noise0 (phase_step 0 (battery_step droneLow))).battery ≤ 0 := by
    show ¬ max 0 ((100 : ℝ) - battery_drain_rate * dt) ≤ 0
    rw [not_le]
    rw [lt_max_iff]
    right
    norm_num [battery_drain_rate, dt]
  have hv : ¬ (workspace_bounds <
        |(apply_noise noise0 (phase_step 0 (battery_step droneLow))).x| ∨
      workspace_bounds < |(apply_noise noise0 (phase_step 0 (battery_step droneLow))).y| ∨
      max_height < (apply_noise noise0 (phase_step 0 (battery_step droneLow))).z) := by
    show ¬ (workspace_bounds < |(0 : ℝ) + 0| ∨ workspace_bounds < |(0 : ℝ) + 0| ∨
      max_height < (-1 : ℝ) + 0)
    norm_num [workspace_bounds, max_height]
  constructor
  · show (error_step (apply_noise noise0 (phase_step 0 (battery_step droneLow)))).z < 0
    rw [error_step_z]
    show (-1 : ℝ) + 0 < 0
    norm_num
  · show (error_step (apply_noise noise0 (phase_step 0 (battery_step droneLow)))).status =
      DroneStatus.idle
    unfold error_step
    rw [if_neg hb, if_neg hv]
    rfl

/-- C3 (amended): after a tick, a drone whose post-noise position violates
`|x| ≤ workspace bound`, `|y| ≤ workspace bound` or `z ≤ max height` has
status Error; an altitude below 0 on its own does not force Error. -/
theorem bounds_error_c3_amended (now : ℝ) (n : Noise) (d : DroneState)
    (hv : workspace_bounds < |(update_drone now n d).x| ∨
      workspace_bounds < |(update_drone now n d).y| ∨
      max_height < (update_drone now n d).z) :
    (update_drone now n d).status = DroneStatus.error := by
  have hx : (update_drone now n d).x =
      (apply_noise n (phase_step now (battery_step d))).x :=
    error_step_x (apply_noise n (phase_step now (battery_step d)))
  have hy : (update_drone now n d).y =
      (apply_noise n (phase_step now (battery_step d))).y :=
    error_step_y (apply_noise n (phase_step now (battery_step d)))
  have hz : (update_drone now n d).z =
      (apply_noise n (phase_step now (battery_step d))).z :=
    error_step_z (apply_noise n (phase_step now (battery_step d)))
  rw [hx, hy, hz] at hv
  show (error_step (apply_noise n (phase_step now (battery_step d)))).status =
    DroneStatus.error
  unfold error_step
  by_cases hb : (apply_noise n (phase_step now (battery_step d))).battery ≤ 0
  · rw [if_pos hb]
  · rw [if_neg hb, if_pos hv]

/-- C3 witness: a drone far out on the x axis is forced to Error. -/
theorem bounds_error_c3_amended_witness :
    (workspace_bounds < |(update_drone 0 noise0 droneFar).x| ∨
      workspace_bounds < |(update_drone 0 noise0 droneFar).y| ∨
      max_height < (update_drone 0 noise0 droneFar).z) ∧
    (update_drone 0 noise0 droneFar).status = DroneStatus.error := by
  have hv : workspace_bounds < |(update_drone 0 noise0 droneFar).x| ∨
      workspace_bounds < |(update_drone 0 noise0 droneFar).y| ∨
      max_height < (update_drone 0 noise0 droneFar).z := by
    left
    have hx : (update_drone 0 noise0 droneFar).x =
        (apply_noise noise0 (phase_step 0 (battery_step droneFar))).x :=
      error_step_x (apply_noise noise0 (phase_step 0 (battery_step droneFar)))
    rw [hx]
    show workspace_bounds < |(5 : ℝ) + 0|
    norm_num [workspace_bounds]
  exact ⟨hv, bounds_error_c3_amended 0 noise0 droneFar hv⟩

/-- C5: `goto` returns true and sets the target to `(x, y, z)` exactly
when the drone exists with status Flying or TakingOff; in every other
case it returns false and leaves the registry unchanged. -/
theorem goto_success_iff_c5 (drones : Registry) (i : String) (x y z s : ℝ) :
    (goto drones i x y z s = (true, modifyEntry drones i (setTarget x y z)) ↔
      ∃ d, lookupDrone i drones = some d ∧
        (d.status = DroneStatus.flying ∨ d.status = DroneStatus.takingOff)) ∧
    (goto drones i x y z s = (false, drones) ↔
      ¬ ∃ d, lookupDrone i drones = some d ∧
        (d.status = DroneStatus.flying ∨ d.status = DroneStatus.takingOff)) := by
  cases hi : lookupDrone i drones with
  | none =>
    have hg := goto_eq_none drones i x y z s hi
    have hnex : ¬ ∃ d, (none : Option DroneState) = some d ∧
        (d.status = DroneStatus.flying ∨ d.status = DroneStatus.takingOff) := by
      rintro ⟨d, hd, _⟩
      exact Option.noConfusion hd
    constructor
    · rw [hg]
      constructor
      · intro h
        exact absurd (congrArg Prod.fst h) (by simp)
      · intro h
        exact absurd h hnex
    · rw [hg]
      exact ⟨fun _ => hnex, fun _ => rfl⟩
  | some d0 =>
    by_cases hs : d0.status = DroneStatus.flying ∨ d0.status = DroneStatus.takingOff
    · have hg := goto_eq_go drones i x y z s d0 hi hs
      constructor
      · rw [hg]
        exact ⟨fun _ => ⟨d0, rfl, hs⟩, fun _ => rfl⟩
      · rw [hg]
        constructor
        · intro h
          exact absurd (congrArg Prod.fst h) (by simp)
        · intro hn
          exact absurd ⟨d0, rfl, hs⟩ hn
    · have hg := goto_eq_stay drones i x y z s d0 hi hs
      have hnex : ¬ ∃ d, some d0 = some d ∧
          (d.status = DroneStatus.flying ∨ d.status = DroneStatus.takingOff) := by
        rintro ⟨d, hd, hflag⟩
        obtain rfl : d0 = d := Option.some.inj hd
        exact hs hflag
      constructor
      · rw [hg]
        constructor
        · intro h
          exact absurd (congrArg Prod.fst h) (by simp)
        · intro h
          exact absurd h hnex
      · rw [hg]
        exact ⟨fun _ => hnex, fun _ => rfl⟩

/-- C6: the `speed` argument of `goto` has no observable effect: for any
two speed values the command returns the same result and registry, and
every subsequent tick evolves identically. -/
theorem goto_speed_irrelevant_c6 (drones : Registry) (i : String) (x y z s1 s2 : ℝ) :
    goto drones i x y z s1 = goto drones i x y z s2 ∧
    ∀ (now : ℝ) (ns : String → Noise),
      update_drones now ns (goto drones i x y z s1).2 =
        update_drones now ns (goto drones i x y z s2).2 :=
  ⟨rfl, fun now ns => rfl⟩

/-- C7: a TakingOff drone whose elapsed time has reached the commanded
duration is snapped to the commanded height with zero vertical velocity
and becomes Flying by the takeoff-phase update of the tick. -/
theorem takeoff_complete_c7 (now : ℝ) (d : DroneState)
    (hst : d.status = DroneStatus.takingOff)
    (hel : d.takeoff_duration ≤ now - d.takeoff_start) :
    phase_step now d =
      { d with z := d.takeoff_height, vz := 0, status := DroneStatus.flying } := by
  unfold phase_step
  rw [hst]
  show update_takeoff now d = _
  unfold update_takeoff
  dsimp only
  rw [if_pos hel]

/-- C7 witness: a concrete takeoff that has run its full duration. -/
theorem takeoff_complete_c7_witness :
    (droneT.status = DroneStatus.takingOff ∧
      droneT.takeoff_duration ≤ (3 : ℝ) - droneT.takeoff_start) ∧
    phase_step 3 droneT =
      { droneT with z := droneT.takeoff_height, vz := 0, status := DroneStatus.flying } := by
  have h1 : droneT.status = DroneStatus.takingOff := rfl
  have h2 : droneT.takeoff_duration ≤ (3 : ℝ) - droneT.takeoff_start := by
    show (2 : ℝ) ≤ 3 - 0
    norm_num
  exact ⟨⟨h1, h2⟩, takeoff_complete_c7 3 droneT h1 h2⟩

/-- C8: no command other than reset touches any drone's battery; each tick
sets battery to `max 0 (battery − drain_rate × dt)`, which never
increases a nonnegative battery. -/
theorem battery_monotone_c8 :
    (∀ (drones : Registry) (i : String) (h du now : ℝ) (j : String),
      batteryOf (takeoff drones i h du now).2 j = batteryOf drones j) ∧
    (∀ (drones : Registry) (i : String) (x y z s : ℝ) (j : String),
      batteryOf (goto drones i x y z s).2 j = batteryOf drones j) ∧
    (∀ (drones : Registry) (i : String) (now : ℝ) (j : String),
      batteryOf (land drones i now).2 j = batteryOf drones j) ∧
    (∀ (drones : Registry) (f : String) (p : FormParams) (j : String),
      batteryOf (set_formation drones f p).2 j = batteryOf drones j) ∧
    (∀ (drones : Registry) (j : String),
      batteryOf (emergency_stop drones) j = batteryOf drones j) ∧
    (∀ (now : ℝ) (n : Noise) (d : DroneState),
      (update_drone now n d).battery = max 0 (d.battery - battery_drain_rate * dt)) ∧
    (∀ (now : ℝ) (n : Noise) (d : DroneState), 0 ≤ d.battery →
      (update_drone now n d).battery ≤ d.battery) := by
  refine ⟨?_, ?_, ?_, ?_, ?_, update_drone_battery, ?_⟩
  · intro drones i h du now j
    cases hi : lookupDrone i drones with
    | none => rw [takeoff_eq_none drones i h du now hi]
    | some di =>
      by_cases hs : di.status = DroneStatus.idle
      · rw [takeoff_eq_go drones i h du now di hi hs]
        exact batteryOf_modifyEntry_pres drones i j (takeoffMut h du now) fun d0 => rfl
      · rw [takeoff_eq_stay drones i h du now di hi hs]
  · intro drones i x y z s j
    cases hi : lookupDrone i drones with
    | none => rw [goto_eq_none drones i x y z s hi]
    | some di =>
      by_cases hs : di.status = DroneStatus.flying ∨ di.status = DroneStatus.takingOff
      · rw [goto_eq_go drones i x y z s di hi hs]
        exact batteryOf_modifyEntry_pres drones i j (setTarget x y z) fun d0 => rfl
      · rw [goto_eq_stay drones i x y z s di hi hs]
  · intro drones i now j
    cases hi : lookupDrone i drones with
    | none => rw [land_eq_none drones i now hi]
    | some di =>
      by_cases hs : di.status = DroneStatus.flying ∨ di.status = DroneStatus.takingOff
      · rw [land_eq_go drones i now di hi hs]
        exact batteryOf_modifyEntry_pres drones i j (landMut now) fun d0 => rfl
      · rw [land_eq_stay drones i now di hi hs]
  · intro drones f p j
    exact batteryOf_set_formation drones f p j
  · intro drones j
    exact batteryOf_emergency_stop j drones
  · intro now n d hb
    rw [update_drone_battery]
    refine max_le hb (sub_le_self _ ?_)
    norm_num [battery_drain_rate, dt]

/-- C8 witness: a concrete tick never raises a fresh drone's battery. -/
theorem battery_monotone_c8_witness :
    (0 : ℝ) ≤ droneT.battery ∧
    (update_drone 0 noise0 droneT).battery ≤ droneT.battery := by
  have hb : (0 : ℝ) ≤ droneT.battery := by
    show (0 : ℝ) ≤ 100
    norm_num
  exact ⟨hb, battery_monotone_c8.2.2.2.2.2.2 0 noise0 droneT hb⟩

/-- C9 counterexample: the line pattern ignores the supplied height
parameter — with height 1 supplied it still places the drone at z = 0.6. -/
theorem line_formation_c9_counterexample :
    paramsH1.height = some 1 ∧
    calc_formation_positions "line" 1 paramsH1 = [((0 : ℝ), (0 : ℝ), (0.6 : ℝ))] ∧
    (0.6 : ℝ) ≠ (1 : ℝ) := by
  refine ⟨rfl, ?_, by norm_num⟩
  unfold calc_formation_positions
  rw [if_pos rfl]
  rw [show List.range 1 = [0] from rfl, List.map_cons, List.map_nil]
  norm_num [paramsH1]

/-- C9 (amended): for count ≥ 1 the line pattern returns exactly count
positions whose i-th element is ((i − (count−1)/2)·spacing, 0, 0.6): the
spacing comes from the parameters but the height is the fixed 0.6,
regardless of the height parameter. -/
theorem line_formation_c9_amended (count : Nat) (hc : 1 ≤ count) (p : FormParams) :
    (calc_formation_positions "line" count p).length = count ∧
    ∀ i, i < count →
      (calc_formation_positions "line" count p).get? i =
        some ((((i : ℕ) : ℝ) - (((count : ℕ) : ℝ) - 1) / 2) * p.spacing.getD 0.5,
          (0 : ℝ), (0.6 : ℝ)) := by
  unfold calc_formation_positions
  rw [if_pos rfl]
  constructor
  · rw [List.length_map, List.length_range]
  · intro i hi
    rw [List.get?_map, List.get?_range hi, Option.map_some']

/-- C9 witness: one drone, explicit height 1 in the parameters. -/
theorem line_formation_c9_amended_witness :
    1 ≤ 1 ∧
    ((calc_formation_positions "line" 1 paramsH1).length = 1 ∧
      ∀ i, i < 1 →
        (calc_formation_positions "line" 1 paramsH1).get? i =
          some ((((i : ℕ) : ℝ) - (((1 : ℕ) : ℝ) - 1) / 2) * paramsH1.spacing.getD 0.5,
            (0 : ℝ), (0.6 : ℝ))) :=
  ⟨by decide, line_formation_c9_amended 1 (by decide) paramsH1⟩
